import Mathlib

/- Shallow embedding of the codeplay backend (src/app.py).

   The development models, in order:
   * JSON values and a model of the Python standard library call json.loads
     (the only parser the program uses);
   * the regular-expression search performed by extract_json_from_text,
     embedded as an explicit leftmost-start backtracking search for the
     pattern  (?:BTBTBTjson)?\s*(OB.*CB)\s*(?:BTBTBT)?  with re.DOTALL,
     where BT is a backtick, OB an opening and CB a closing curly brace;
   * extract_json_from_text itself;
   * the /ai request handler generate_code, with the inbound body and the
     external model call (model.generate_content) as explicit parameters.

   Curly braces are written with the escapes \x7b and \x7d throughout
   (including in string literals and character literals). -/

/- JSON values as produced by json.loads.  Numeric literals keep their source
   lexeme (Python converts them to int/float; no claim depends on numeric
   arithmetic).  Objects keep their key/value pairs in parse order; Python
   builds a dict in which a duplicated key keeps the value of its last
   occurrence, so the lookup used by the handler (pyLookupLast below) takes
   the last binding. -/
inductive JsonVal where
  | null
  | bool (b : Bool)
  | num (lexeme : String)
  | str (s : String)
  | arr (elements : List JsonVal)
  | obj (members : List (String × JsonVal))

/- Whitespace accepted by the json module between tokens: the WHITESPACE
   regular expression of the Python json package is [ \t\n\r]*. -/
def isJsonWs (c : Char) : Bool :=
  c == ' ' || c == '\t' || c == '\n' || c == '\r'

/- Value of one hexadecimal digit, as accepted in a \uXXXX string escape. -/
def hexVal (c : Char) : Option Nat :=
  if '0' ≤ c ∧ c ≤ '9' then some (c.toNat - '0'.toNat)
  else if 'a' ≤ c ∧ c ≤ 'f' then some (c.toNat - 'a'.toNat + 10)
  else if 'A' ≤ c ∧ c ≤ 'F' then some (c.toNat - 'A'.toNat + 10)
  else none

/- Four hexadecimal digits, most significant first. -/
def hex4 : List Char → Option (Nat × List Char)
  | a :: b :: c :: d :: rest =>
    match hexVal a, hexVal b, hexVal c, hexVal d with
    | some x, some y, some z, some w => some (((x * 16 + y) * 16 + z) * 16 + w, rest)
    | _, _, _, _ => none
  | _ => none

/- Single-character string escapes of JSON (the BACKSLASH table of the Python
   json decoder). -/
def escMap (c : Char) : Option Char :=
  if c = '"' then some '"'
  else if c = '\\' then some '\\'
  else if c = '/' then some '/'
  else if c = 'b' then some '\x08'
  else if c = 'f' then some '\x0c'
  else if c = 'n' then some '\n'
  else if c = 'r' then some '\r'
  else if c = 't' then some '\t'
  else none

/- Body of a JSON string, after the opening quote; returns the decoded
   characters and the input following the closing quote.  Mirrors
   py_scanstring with strict=True: a raw control character below 0x20 is
   rejected, surrogate pairs in \u escapes are combined.  A lone surrogate,
   which Python would keep as an unpaired surrogate code unit, has no
   representation in a Lean Char and makes this model fail; no claim
   exercises that corner.  The fuel argument bounds recursion depth and is
   always supplied larger than the input length. -/
def parseStringChars : Nat → List Char → Option (List Char × List Char)
  | 0, _ => none
  | fuel + 1, cs =>
    match cs with
    | [] => none
    | c :: rest =>
      if c = '"' then some ([], rest)
      else if c = '\\' then
        match rest with
        | [] => none
        | e :: r2 =>
          if e = 'u' then
            match hex4 r2 with
            | none => none
            | some (n, r3) =>
              if 0xD800 ≤ n ∧ n ≤ 0xDBFF then
                match r3 with
                | '\\' :: 'u' :: r4 =>
                  match hex4 r4 with
                  | some (n2, r5) =>
                    if 0xDC00 ≤ n2 ∧ n2 ≤ 0xDFFF then
                      (parseStringChars fuel r5).map
                        (fun p => (Char.ofNat (0x10000 + (n - 0xD800) * 0x400 + (n2 - 0xDC00)) :: p.1, p.2))
                    else none
                  | none => none
                | _ => none
              else if 0xDC00 ≤ n ∧ n ≤ 0xDFFF then none
              else (parseStringChars fuel r3).map (fun p => (Char.ofNat n :: p.1, p.2))
          else
            match escMap e with
            | some c2 => (parseStringChars fuel r2).map (fun p => (c2 :: p.1, p.2))
            | none => none
      else if c.toNat < 0x20 then none
      else (parseStringChars fuel rest).map (fun p => (c :: p.1, p.2))

/- Literal continuation: consumes exactly the given characters. -/
def expectLit : List Char → List Char → Option (List Char)
  | [], cs => some cs
  | _ :: _, [] => none
  | l :: ls, c :: cs => if c = l then expectLit ls cs else none

/- Integer part of the json NUMBER_RE regular expression: 0, or a nonzero
   digit followed by digits. -/
def lexInt : List Char → Option (List Char × List Char)
  | [] => none
  | '0' :: rest => some (['0'], rest)
  | c :: rest =>
    if '1' ≤ c ∧ c ≤ '9' then
      some (c :: rest.takeWhile Char.isDigit, rest.dropWhile Char.isDigit)
    else none

/- Optional fractional part (\.\d+)? : consumed only when the dot is followed
   by at least one digit, otherwise left in the remainder, exactly as the
   optional regex group would fail to participate in the match. -/
def lexFrac : List Char → List Char × List Char
  | '.' :: rest =>
    let ds := rest.takeWhile Char.isDigit
    if ds.isEmpty then ([], '.' :: rest)
    else ('.' :: ds, rest.dropWhile Char.isDigit)
  | cs => ([], cs)

/- Optional exponent part ([eE][-+]?\d+)? with the same non-participation
   behaviour as lexFrac. -/
def lexExp : List Char → List Char × List Char
  | [] => ([], [])
  | c :: rest =>
    if c = 'e' ∨ c = 'E' then
      match rest with
      | [] => ([], [c])
      | s :: r2 =>
        if s = '+' ∨ s = '-' then
          let ds := r2.takeWhile Char.isDigit
          if ds.isEmpty then ([], c :: rest) else (c :: s :: ds, r2.dropWhile Char.isDigit)
        else
          let ds := rest.takeWhile Char.isDigit
          if ds.isEmpty then ([], c :: rest) else (c :: ds, rest.dropWhile Char.isDigit)
    else ([], c :: rest)

/- Full numeric literal per NUMBER_RE: -?(0|[1-9]\d*)(\.\d+)?([eE][-+]?\d+)? -/
def lexNumber (cs : List Char) : Option (String × List Char) :=
  let sgn : List Char × List Char :=
    match cs with
    | '-' :: r => (['-'], r)
    | _ => ([], cs)
  match lexInt sgn.2 with
  | none => none
  | some (ip, r1) =>
    let fp := lexFrac r1
    let ep := lexExp fp.2
    some (String.mk (sgn.1 ++ ip ++ fp.1 ++ ep.1), ep.2)

mutual

/- One JSON value, mirroring the dispatch of the Python json scanner
   (scan_once), with the leading whitespace skipping its callers perform.
   Returns the value and the unconsumed remainder. -/
def parseValue : Nat → List Char → Option (JsonVal × List Char)
  | 0, _ => none
  | fuel + 1, cs =>
    let cs1 := cs.dropWhile isJsonWs
    match cs1 with
    | [] => none
    | c :: rest =>
      if c = '\x7b' then
        let cs2 := rest.dropWhile isJsonWs
        match cs2 with
        | '\x7d' :: r2 => some (JsonVal.obj [], r2)
        | _ => parseMembers fuel cs2 []
      else if c = '[' then
        let cs2 := rest.dropWhile isJsonWs
        match cs2 with
        | ']' :: r2 => some (JsonVal.arr [], r2)
        | _ => parseElems fuel cs2 []
      else if c = '"' then
        (parseStringChars (fuel + 1) rest).map (fun p => (JsonVal.str (String.mk p.1), p.2))
      else if c = 't' then (expectLit (("rue").toList) rest).map (fun r => (JsonVal.bool true, r))
      else if c = 'f' then (expectLit (("alse").toList) rest).map (fun r => (JsonVal.bool false, r))
      else if c = 'n' then (expectLit (("ull").toList) rest).map (fun r => (JsonVal.null, r))
      else if c = 'N' then (expectLit (("aN").toList) rest).map (fun r => (JsonVal.num ("NaN"), r))
      else if c = 'I' then
        (expectLit (("nfinity").toList) rest).map (fun r => (JsonVal.num ("Infinity"), r))
      else if c = '-' then
        match expectLit (("Infinity").toList) rest with
        | some r2 => some (JsonVal.num ("-Infinity"), r2)
        | none => (lexNumber (c :: rest)).map (fun p => (JsonVal.num p.1, p.2))
      else (lexNumber (c :: rest)).map (fun p => (JsonVal.num p.1, p.2))

/- Members of an object after its opening brace (JSONObject of the Python
   decoder), positioned at an expected opening quote of a key; the empty
   object is handled by parseValue before the first call. -/
def parseMembers : Nat → List Char → List (String × JsonVal) → Option (JsonVal × List Char)
  | 0, _, _ => none
  | fuel + 1, cs, acc =>
    match cs with
    | '"' :: rest =>
      match parseStringChars (fuel + 1) rest with
      | none => none
      | some (key, r1) =>
        match r1.dropWhile isJsonWs with
        | ':' :: r3 =>
          match parseValue fuel r3 with
          | none => none
          | some (v, r4) =>
            match r4.dropWhile isJsonWs with
            | ',' :: r6 => parseMembers fuel (r6.dropWhile isJsonWs) (acc ++ [(String.mk key, v)])
            | '\x7d' :: r6 => some (JsonVal.obj (acc ++ [(String.mk key, v)]), r6)
            | _ => none
        | _ => none
    | _ => none

/- Elements of an array after its opening bracket (JSONArray of the Python
   decoder); the empty array is handled by parseValue. -/
def parseElems : Nat → List Char → List JsonVal → Option (JsonVal × List Char)
  | 0, _, _ => none
  | fuel + 1, cs, acc =>
    match parseValue fuel cs with
    | none => none
    | some (v, r1) =>
      match r1.dropWhile isJsonWs with
      | ',' :: r3 => parseElems fuel r3 (acc ++ [v])
      | ']' :: r3 => some (JsonVal.arr (acc ++ [v]), r3)
      | _ => none

end

/- Model of json.loads: one value, surrounded only by whitespace (the decoder
   raises Extra data when anything else remains).  The fuel exceeds the input
   length, which bounds every chain of nested recursive calls since each one
   consumes at least one character. -/
def jsonParse (s : String) : Option JsonVal :=
  match parseValue (s.toList.length + 1) s.toList with
  | some (v, rest) => if rest.dropWhile isJsonWs = [] then some v else none
  | none => none

/- Characters matched by \s in the pattern of extract_json_from_text (the
   ASCII ones; re also counts some further Unicode whitespace, which no claim
   exercises — only the fact that a brace is not whitespace matters to the
   proofs below). -/
def isPySpace (c : Char) : Bool :=
  c == ' ' || c == '\t' || c == '\n' || c == '\r' || c == '\x0b' || c == '\x0c'

/- Index of the last closing brace of a list, when there is one.  This is
   where the greedy .* of the capture group (\x7b.*\x7d), run with re.DOTALL,
   backtracks to: the last position whose character is a closing brace. -/
def lastCloseIdx : List Char → Option Nat
  | [] => none
  | c :: rest =>
    match lastCloseIdx rest with
    | some k => some (k + 1)
    | none => if c = '\x7d' then some 0 else none

/- Attempt of the capture group (\x7b.*\x7d) at the head of the input: the
   head must be an opening brace, and the group extends greedily to the last
   closing brace of the whole remainder. -/
def tryGroup : List Char → Option (List Char)
  | [] => none
  | c :: rest =>
    if c = '\x7b' then
      match lastCloseIdx rest with
      | some k => some ('\x7b' :: rest.take (k + 1))
      | none => none
    else none

/- After an (absent or consumed) opening marker, the pattern continues with
   \s* and then the capture group.  The greedy \s* backtracks, but since an
   opening brace is not whitespace the only run it can end at is the maximal
   one, so dropping the whole whitespace run is faithful. -/
def afterMarker (cs : List Char) : Option (List Char) :=
  tryGroup (cs.dropWhile isPySpace)

/- Characters of the literal of the optional opening marker (three backticks
   followed by the word json). -/
def markerOpen : List Char := ("```json").toList

/- Branch of the match attempt in which the optional (?:...)? opening marker
   participates: it requires its seven literal characters. -/
def markerBranch (cs : List Char) : Option (List Char) :=
  if cs.take 7 = markerOpen then afterMarker (cs.drop 7) else none

/- Match attempt at one start position.  The greedy optional marker is tried
   present first, then absent.  The trailing \s*(?:BTBTBT)? of the pattern can
   always match the empty string and so constrains nothing; it is omitted. -/
def matchAt (cs : List Char) : Option (List Char) :=
  match markerBranch cs with
  | some g => some g
  | none => afterMarker cs

/- re.search: the match attempt is made at every start position from the left
   and the first success wins; the capture group of that match is returned. -/
def reSearch : List Char → Option (List Char)
  | [] => matchAt []
  | c :: rest =>
    match matchAt (c :: rest) with
    | some g => some g
    | none => reSearch rest

/- Failure reasons of extract_json_from_text: the ValueError message is
   No JSON found in response for the first, and Invalid JSON format followed
   by the json.JSONDecodeError diagnostic for the second (the logger also
   records the latter). -/
inductive ExtractErr where
  | noJsonFound
  | invalidJson

inductive ExtractResult where
  | ok (v : JsonVal)
  | err (e : ExtractErr)

/- extract_json_from_text (src/app.py lines 48-58): regex search for the
   candidate span, then json.loads on the captured group.  The raised
   ValueError variants become the two ExtractErr constructors; the
   json.JSONDecodeError branch re-raises as ValueError, so both failures leave
   the function as a ValueError exactly as modelled. -/
def extract_json_from_text (text : String) : ExtractResult :=
  match reSearch text.toList with
  | none => ExtractResult.err ExtractErr.noJsonFound
  | some g =>
    match jsonParse (String.mk g) with
    | some v => ExtractResult.ok v
    | none => ExtractResult.err ExtractErr.invalidJson

/- Specification-side description of the captured span (section 4.2 of the
   specification and claim C7): from the first opening brace of the text,
   greedily to the last closing brace of the text, tolerating an optional
   leading marker and optional trailing marker.  Written independently of the
   regex embedding above; the theorem for C7 proves the two agree on every
   input. -/
def notBrace (c : Char) : Bool := c != '\x7b'

def expectedSpan (cs : List Char) : Option (List Char) :=
  tryGroup (cs.dropWhile notBrace)

/- Outcome of request.get_json() at line 64.  When the body is present but is
   not valid JSON, Flask raises a BadRequest (an HTTPException, hence an
   Exception) from inside the try block; newer Flask also raises
   UnsupportedMediaType when the JSON content type is missing.  Older Flask
   returns None in the latter case.  Both library behaviours are represented:
   malformed models every raising outcome, absent the None outcome. -/
inductive ReqBody where
  | malformed
  | absent
  | json (v : JsonVal)

/- Outcome of the model.generate_content call at line 73 together with the
   response.text access at line 79:
   * ok: both succeed, yielding the raw model text;
   * raisesValueError: generate_content itself raises a ValueError — a
     documented failure mode of the client (for instance a blocked prompt);
     the response local is then never bound, so the except ValueError branch
     answers 502 with a null raw_response;
   * raises: a non-ValueError exception (network failure, upstream error,
     any other unexpected exception), whose detail the handler must not
     leak; it lands in the generic except Exception branch.
   One further corner is not modelled: when generate_content succeeds but
   the response.text accessor raises a ValueError (blocked candidates), the
   except ValueError body evaluates response.text again while building
   raw_response, the fresh ValueError escapes the view function, and the
   framework rather than this handler produces the response — in no case the
   generic 500 of the handler. -/
inductive ModelOutcome where
  | ok (text : String)
  | raisesValueError (detail : String)
  | raises (detail : String)

/- Result of one call of the handler: HTTP status, JSON body, and whether
   model.generate_content was invoked (line 73 reached). -/
structure HandlerResult where
  status : Nat
  body : JsonVal
  modelCalled : Bool

/- Python truthiness of a parsed JSON value, for the test  not data  at line
   65: None, False, empty containers, the empty string and numeric zero are
   falsy.  A numeric literal is zero exactly when its mantissa has digits and
   none of them is nonzero (NaN and Infinity have no digits and are truthy). -/
def numIsZero (lex : String) : Bool :=
  let mant := lex.toList.takeWhile (fun c => !(c == 'e' || c == 'E'))
  mant.any Char.isDigit && mant.all (fun c => !(c.isDigit && c != '0'))

def pyTruthy : JsonVal → Bool
  | JsonVal.null => false
  | JsonVal.bool b => b
  | JsonVal.num lex => !(numIsZero lex)
  | JsonVal.str s => !(s == "")
  | JsonVal.arr xs => !xs.isEmpty
  | JsonVal.obj kvs => !kvs.isEmpty

/- Substring test on character lists, for the Python  in  operator on str. -/
def startsWithChars : List Char → List Char → Bool
  | [], _ => true
  | _ :: _, [] => false
  | n :: ns, h :: hs => n == h && startsWithChars ns hs

def hasSubChars (needle : List Char) : List Char → Bool
  | [] => startsWithChars needle []
  | h :: hs => startsWithChars needle (h :: hs) || hasSubChars needle hs

/- Python membership  key in data  at line 65: key lookup for a dict, element
   equality for a list (a str never equals a parsed number, bool or None),
   substring test for a str; a TypeError — modelled as none — for the
   remaining types, which are not iterable. -/
def pyContains (k : String) : JsonVal → Option Bool
  | JsonVal.obj kvs => some (kvs.any (fun p => p.1 == k))
  | JsonVal.arr xs =>
    some (xs.any (fun x => match x with | JsonVal.str s => s == k | _ => false))
  | JsonVal.str s => some (hasSubChars k.toList s.toList)
  | _ => none

/- Lookup of the last binding of a key, matching the dict json.loads builds
   (a duplicated key keeps the value of its last occurrence). -/
def pyLookupLast (k : String) : List (String × JsonVal) → Option JsonVal
  | [] => none
  | (k2, v) :: rest =>
    match pyLookupLast k rest with
    | some r => some r
    | none => if k2 == k then some v else none

/- Python indexing  data[key]  at line 68: defined for a dict; a TypeError —
   modelled as none — for every other type (a str or list reaching this point
   raises: string indices and list indices must be integers). -/
def pyIndex (k : String) : JsonVal → Option JsonVal
  | JsonVal.obj kvs => pyLookupLast k kvs
  | _ => none

/- Python str.strip() at line 68 (the ASCII whitespace characters; str.strip
   also removes further Unicode whitespace, which no claim exercises). -/
def pyStrip (s : String) : String :=
  String.mk (((s.toList.dropWhile isPySpace).reverse.dropWhile isPySpace).reverse)

/- Response bodies.  The message of line 66 quotes the word prompt between
   apostrophes in the source; the apostrophes are elided here. -/
def msgMissingPrompt : String := "Missing prompt in request"
def msgEmptyPrompt : String := "Prompt cannot be empty"
def msgMalformedResponse : String := "AI returned malformed response"
def msgInternal : String := "Internal server error"

def resp400Missing : HandlerResult :=
  ⟨400, JsonVal.obj [(("error"), JsonVal.str msgMissingPrompt)], false⟩

def resp400Empty : HandlerResult :=
  ⟨400, JsonVal.obj [(("error"), JsonVal.str msgEmptyPrompt)], false⟩

def resp500 (called : Bool) : HandlerResult :=
  ⟨500, JsonVal.obj [(("error"), JsonVal.str msgInternal)], called⟩

def resp502 (raw : Option String) : HandlerResult :=
  ⟨502,
   JsonVal.obj
     [(("error"), JsonVal.str msgMalformedResponse),
      (("raw_response"), match raw with | some t => JsonVal.str t | none => JsonVal.null)],
   true⟩

/- The /ai handler generate_code (src/app.py lines 62-91).  Control flow of
   the source: get_json, the two 400 validations, the model call, extraction,
   200 on success.  except ValueError gives the 502: with the raw text when
   the ValueError comes from extraction (the response local is then bound),
   and with a null raw_response when the model call itself raised a
   ValueError (the response local is then absent from locals()).  except
   Exception gives the generic 500 — this branch also receives the
   exceptions raised by get_json on an unparseable body, by  in  on a
   non-container body, by indexing a non-dict, and by .strip() on a
   non-string prompt value. -/
def generate_code (data : ReqBody) (outcome : ModelOutcome) : HandlerResult :=
  match data with
  | ReqBody.malformed => resp500 false
  | ReqBody.absent => resp400Missing
  | ReqBody.json v =>
    if pyTruthy v = false then resp400Missing
    else
      match pyContains ("prompt") v with
      | none => resp500 false
      | some false => resp400Missing
      | some true =>
        match pyIndex ("prompt") v with
        | none => resp500 false
        | some pv =>
          match pv with
          | JsonVal.str s =>
            if pyStrip s = "" then resp400Empty
            else
              match outcome with
              | ModelOutcome.raises _ => resp500 true
              | ModelOutcome.raisesValueError _ => resp502 none
              | ModelOutcome.ok text =>
                match extract_json_from_text text with
                | ExtractResult.ok g => ⟨200, g, true⟩
                | ExtractResult.err _ => resp502 (some text)
          | _ => resp500 false

/- Presence of a key in a JSON object body, used to state that an error body
   carries an error field. -/
def hasKey (k : String) : JsonVal → Bool
  | JsonVal.obj kvs => kvs.any (fun p => p.1 == k)
  | _ => false

/- Specification-side description of a request that fails validation (claim
   C5): missing or invalid body, missing prompt key (the  in  test not
   succeeding), or a prompt that is the empty string after trimming. -/
def failsValidation : ReqBody → Bool
  | ReqBody.malformed => true
  | ReqBody.absent => true
  | ReqBody.json v =>
    !pyTruthy v
    || !(pyContains ("prompt") v == some true)
    || (match pyIndex ("prompt") v with
        | some (JsonVal.str s) => pyStrip s == ""
        | _ => false)

example : generate_code (ReqBody.json (JsonVal.obj [])) (ModelOutcome.ok ("x")) = resp400Missing := rfl
example : generate_code (ReqBody.json (JsonVal.obj [(("prompt"), JsonVal.str ("  "))]))
    (ModelOutcome.ok ("x")) = resp400Empty := rfl
example : generate_code (ReqBody.json (JsonVal.obj [(("prompt"), JsonVal.str ("hi"))]))
    (ModelOutcome.ok ("\x7b\"html\": \"<b>\"\x7d")) =
    ⟨200, JsonVal.obj [(("html"), JsonVal.str ("<b>"))], true⟩ := rfl
example : generate_code (ReqBody.json (JsonVal.obj [(("prompt"), JsonVal.str ("hi"))]))
    (ModelOutcome.ok ("plain prose")) = resp502 (some ("plain prose")) := rfl
example : generate_code (ReqBody.json (JsonVal.obj [(("prompt"), JsonVal.num ("5"))]))
    (ModelOutcome.ok ("x")) = resp500 false := rfl

example : jsonParse ("\x7b\x7d") = some (JsonVal.obj []) := rfl
example : jsonParse (" \x7b \"a\" : 1 \x7d ") = some (JsonVal.obj [(("a"), JsonVal.num ("1"))]) := rfl
example : jsonParse ("\x7b\"a\": 1,\x7d") = none := rfl
example : jsonParse ("\x7b\"a\": true, \"b\": [1.5e2, null, \"x\"]\x7d") =
    some (JsonVal.obj
      [(("a"), JsonVal.bool true),
       (("b"), JsonVal.arr [JsonVal.num ("1.5e2"), JsonVal.null, JsonVal.str ("x")])]) := rfl
example : jsonParse ("\x7b\"a\" 1\x7d") = none := rfl
example : jsonParse ("\x7b\"a\": 1\x7d extra") = none := rfl
example : jsonParse ("\x7ba: 1\x7d") = none := rfl

example : extract_json_from_text ("```json\n\x7b\"a\": true\x7d\n```") =
    ExtractResult.ok (JsonVal.obj [(("a"), JsonVal.bool true)]) := rfl
example : extract_json_from_text ("Sure! \x7b\"a\": 1\x7d done") =
    ExtractResult.ok (JsonVal.obj [(("a"), JsonVal.num ("1"))]) := rfl
example : extract_json_from_text ("no braces here") =
    ExtractResult.err ExtractErr.noJsonFound := rfl
example : extract_json_from_text ("\x7b\"a\": 1,\x7d") =
    ExtractResult.err ExtractErr.invalidJson := rfl
example : extract_json_from_text ("\x7b\"a\": 1\x7d trailing\x7d") =
    ExtractResult.err ExtractErr.invalidJson := rfl

/- Lemmas relating the regex search to the specification-side description of
   the captured span. -/

lemma notBrace_of_isPySpace {c : Char} (h : isPySpace c = true) : notBrace c = true := by
  simp only [isPySpace, Bool.or_eq_true, beq_iff_eq] at h
  rcases h with ((((h | h) | h) | h) | h) | h <;> subst h <;> decide

lemma dropWhile_notBrace_dropWhile_isPySpace (l : List Char) :
    (l.dropWhile isPySpace).dropWhile notBrace = l.dropWhile notBrace := by
  induction l with
  | nil => rfl
  | cons c rest ih =>
    by_cases hcp : isPySpace c = true
    · rw [List.dropWhile_cons_of_pos hcp, ih,
        List.dropWhile_cons_of_pos (notBrace_of_isPySpace hcp)]
    · rw [List.dropWhile_cons_of_neg hcp]

lemma dropWhile_notBrace_append (a m : List Char) (h : ∀ x ∈ a, notBrace x = true) :
    (a ++ m).dropWhile notBrace = m.dropWhile notBrace := by
  induction a with
  | nil => rfl
  | cons x a ih =>
    rw [List.cons_append, List.dropWhile_cons_of_pos (h x (List.mem_cons_self x a))]
    exact ih (fun y hy => h y (List.mem_cons_of_mem x hy))

lemma markerOpen_notBrace : ∀ x ∈ markerOpen, notBrace x = true := by decide

lemma markerOpen_eq : markerOpen = '\x60' :: '\x60' :: '\x60' :: 'j' :: 's' :: 'o' :: 'n' :: [] := rfl

lemma brace_take_ne (rest : List Char) : ('\x7b' :: rest).take 7 ≠ markerOpen := by
  intro h
  have h2 : '\x7b' :: rest.take 6 = markerOpen := h
  rw [markerOpen_eq] at h2
  injection h2 with h3 _
  exact absurd h3 (by decide)

lemma tryGroup_eq_some {m g : List Char} (h : tryGroup m = some g) :
    ∃ u k, m = '\x7b' :: u ∧ lastCloseIdx u = some k ∧ g = '\x7b' :: u.take (k + 1) := by
  match m with
  | [] => cases h
  | c :: rest =>
    simp only [tryGroup] at h
    by_cases hc : c = '\x7b'
    · subst hc
      rw [if_pos rfl] at h
      cases hk : lastCloseIdx rest with
      | none => rw [hk] at h; cases h
      | some k =>
        rw [hk] at h
        injection h with h2
        exact ⟨rest, k, rfl, hk, h2.symm⟩
    · rw [if_neg hc] at h; cases h

lemma afterMarker_some {l g : List Char} (h : afterMarker l = some g) :
    expectedSpan l = some g := by
  unfold afterMarker at h
  obtain ⟨u, k, hd, hk, hg⟩ := tryGroup_eq_some h
  unfold expectedSpan
  rw [← dropWhile_notBrace_dropWhile_isPySpace l, hd,
    List.dropWhile_cons_of_neg (by decide : ¬ notBrace '\x7b' = true)]
  rw [hd] at h
  exact h

lemma markerBranch_some {l g : List Char} (h : markerBranch l = some g) :
    expectedSpan l = some g := by
  unfold markerBranch at h
  by_cases hm : l.take 7 = markerOpen
  · rw [if_pos hm] at h
    have hs := afterMarker_some h
    unfold expectedSpan at hs ⊢
    have hdw : l.dropWhile notBrace = (l.drop 7).dropWhile notBrace := by
      calc l.dropWhile notBrace
          = (l.take 7 ++ l.drop 7).dropWhile notBrace := by rw [List.take_append_drop]
        _ = (l.drop 7).dropWhile notBrace :=
            dropWhile_notBrace_append _ _ (fun x hx => markerOpen_notBrace x (hm ▸ hx))
    rw [hdw]
    exact hs
  · rw [if_neg hm] at h; cases h

lemma matchAt_some {l g : List Char} (h : matchAt l = some g) : expectedSpan l = some g := by
  unfold matchAt at h
  cases hb : markerBranch l with
  | some g2 =>
    rw [hb] at h
    injection h with h2
    exact h2 ▸ markerBranch_some hb
  | none =>
    rw [hb] at h
    exact afterMarker_some h

lemma matchAt_brace (rest : List Char) :
    matchAt ('\x7b' :: rest) = tryGroup ('\x7b' :: rest) := by
  unfold matchAt markerBranch
  rw [if_neg (brace_take_ne rest)]
  show afterMarker ('\x7b' :: rest) = _
  unfold afterMarker
  rw [List.dropWhile_cons_of_neg (by decide : ¬ isPySpace '\x7b' = true)]

lemma lastCloseIdx_none_of_not_mem : ∀ {l : List Char}, '\x7d' ∉ l → lastCloseIdx l = none := by
  intro l
  induction l with
  | nil => intro _; rfl
  | cons c rest ih =>
    intro h
    have hrest : '\x7d' ∉ rest := fun hm => h (List.mem_cons_of_mem _ hm)
    have hc : ¬ (c = '\x7d') := fun he => h (by rw [← he]; exact List.mem_cons_self c rest)
    unfold lastCloseIdx
    rw [ih hrest, if_neg hc]

lemma not_mem_of_lastCloseIdx_none : ∀ {l : List Char}, lastCloseIdx l = none → '\x7d' ∉ l := by
  intro l
  induction l with
  | nil => intro _; simp
  | cons c rest ih =>
    intro h
    unfold lastCloseIdx at h
    cases hk : lastCloseIdx rest with
    | some k => rw [hk] at h; cases h
    | none =>
      rw [hk] at h
      by_cases hc : c = '\x7d'
      · rw [if_pos hc] at h; cases h
      · intro hm
        rcases List.mem_cons.mp hm with he | hm2
        · exact hc he.symm
        · exact ih hk hm2

lemma tryGroup_brace_none {rest : List Char} (h : tryGroup ('\x7b' :: rest) = none) :
    lastCloseIdx rest = none := by
  simp only [tryGroup, if_true] at h
  cases hk : lastCloseIdx rest with
  | some k => rw [hk] at h; cases h
  | none => rfl

lemma mem_of_mem_dropWhile {p : Char → Bool} :
    ∀ {l : List Char} {x : Char}, x ∈ l.dropWhile p → x ∈ l := by
  intro l
  induction l with
  | nil => intro x h; exact h
  | cons c rest ih =>
    intro x h
    by_cases hc : p c = true
    · rw [List.dropWhile_cons_of_pos hc] at h
      exact List.mem_cons_of_mem _ (ih h)
    · rw [List.dropWhile_cons_of_neg hc] at h
      exact h

lemma expectedSpan_none_of_not_mem {l : List Char} (h : '\x7d' ∉ l) :
    expectedSpan l = none := by
  unfold expectedSpan
  cases hd : l.dropWhile notBrace with
  | nil => rfl
  | cons c rest =>
    simp only [tryGroup]
    by_cases hc : c = '\x7b'
    · rw [if_pos hc]
      have hrest : '\x7d' ∉ rest := fun hm =>
        h (mem_of_mem_dropWhile (p := notBrace)
          (by rw [hd]; exact List.mem_cons_of_mem c hm))
      rw [lastCloseIdx_none_of_not_mem hrest]
    · rw [if_neg hc]

/- Central characterization: the leftmost-start regex search agrees with the
   specification-side description of the span on every input. -/
theorem reSearch_eq_expectedSpan : ∀ cs : List Char, reSearch cs = expectedSpan cs := by
  intro cs
  induction cs with
  | nil => rfl
  | cons c rest ih =>
    unfold reSearch
    cases hm : matchAt (c :: rest) with
    | some g => exact (matchAt_some hm).symm
    | none =>
      show reSearch rest = expectedSpan (c :: rest)
      rw [ih]
      by_cases hc : c = '\x7b'
      · subst hc
        rw [matchAt_brace] at hm
        have h2 := not_mem_of_lastCloseIdx_none (tryGroup_brace_none hm)
        have h3 : expectedSpan ('\x7b' :: rest) = none := by
          unfold expectedSpan
          rw [List.dropWhile_cons_of_neg (by decide : ¬ notBrace '\x7b' = true)]
          exact hm
        rw [h3, expectedSpan_none_of_not_mem h2]
      · have hcb : notBrace c = true := by
          simp only [notBrace, bne_iff_ne, ne_eq]
          exact hc
        show expectedSpan rest = expectedSpan (c :: rest)
        unfold expectedSpan
        rw [List.dropWhile_cons_of_pos hcb]

lemma lastCloseIdx_append {b : List Char} (a : List Char) (hb : '\x7d' ∉ b) :
    lastCloseIdx (a ++ '\x7d' :: b) = some a.length := by
  induction a with
  | nil =>
    show lastCloseIdx ('\x7d' :: b) = some 0
    unfold lastCloseIdx
    rw [lastCloseIdx_none_of_not_mem hb, if_pos rfl]
  | cons x a ih =>
    show lastCloseIdx (x :: (a ++ '\x7d' :: b)) = some (a.length + 1)
    unfold lastCloseIdx
    rw [ih]

lemma take_append_cons (a : List Char) (c : Char) (b : List Char) :
    (a ++ c :: b).take (a.length + 1) = a ++ [c] := by
  induction a with
  | nil => rfl
  | cons x a ih =>
    show x :: (a ++ c :: b).take (a.length + 1) = x :: (a ++ [c])
    rw [ih]

lemma expectedSpan_embedded (pre mid post : List Char)
    (hpre : ∀ x ∈ pre, notBrace x = true) (hpost : '\x7d' ∉ post) :
    expectedSpan (pre ++ ('\x7b' :: (mid ++ ['\x7d'])) ++ post) =
      some ('\x7b' :: (mid ++ ['\x7d'])) := by
  unfold expectedSpan
  rw [List.append_assoc, dropWhile_notBrace_append pre _ hpre]
  show tryGroup (List.dropWhile notBrace ('\x7b' :: (mid ++ ['\x7d'] ++ post))) = _
  rw [List.dropWhile_cons_of_neg (by decide : ¬ notBrace '\x7b' = true)]
  simp only [tryGroup, if_true]
  have h1 : mid ++ ['\x7d'] ++ post = mid ++ '\x7d' :: post := by simp
  rw [h1, lastCloseIdx_append mid hpost]
  show some ('\x7b' :: (mid ++ '\x7d' :: post).take (mid.length + 1)) = _
  rw [take_append_cons]

/- Lemmas about the handler. -/

lemma pyTruthy_obj_of_lookup {k : String} {kvs : List (String × JsonVal)} {v : JsonVal}
    (h : pyLookupLast k kvs = some v) : pyTruthy (JsonVal.obj kvs) = true := by
  cases kvs with
  | nil => cases h
  | cons p rest => rfl

lemma any_key_of_lookup {k : String} :
    ∀ {kvs : List (String × JsonVal)} {v : JsonVal},
      pyLookupLast k kvs = some v → kvs.any (fun p => p.1 == k) = true := by
  intro kvs
  induction kvs with
  | nil => intro v h; cases h
  | cons p rest ih =>
    obtain ⟨k2, v2⟩ := p
    intro v h
    simp only [pyLookupLast] at h
    cases hr : pyLookupLast k rest with
    | some r => simp [List.any_cons, ih hr]
    | none =>
      rw [hr] at h
      by_cases hk : (k2 == k) = true
      · simp [List.any_cons, hk]
      · rw [if_neg hk] at h; cases h

lemma pyIndex_obj {k : String} {v pv : JsonVal} (h : pyIndex k v = some pv) :
    ∃ kvs, v = JsonVal.obj kvs ∧ pyLookupLast k kvs = some pv := by
  cases v with
  | obj kvs => exact ⟨kvs, rfl, h⟩
  | null => simp [pyIndex] at h
  | bool b => simp [pyIndex] at h
  | num lex => simp [pyIndex] at h
  | str s => simp [pyIndex] at h
  | arr xs => simp [pyIndex] at h

lemma pyContains_obj_of_lookup {k : String} {kvs : List (String × JsonVal)} {v : JsonVal}
    (h : pyLookupLast k kvs = some v) :
    pyContains k (JsonVal.obj kvs) = some true := by
  simp [pyContains, any_key_of_lookup h]

/- Evaluation of the handler once validation has been passed: the body is a
   JSON object whose prompt value is a string that is nonempty after
   stripping; the result depends only on the model outcome and extraction. -/
lemma generate_code_reach (kvs : List (String × JsonVal)) (s : String) (outcome : ModelOutcome)
    (hidx : pyIndex ("prompt") (JsonVal.obj kvs) = some (JsonVal.str s))
    (hne : ¬ pyStrip s = "") :
    generate_code (ReqBody.json (JsonVal.obj kvs)) outcome =
      match outcome with
      | ModelOutcome.raises _ => resp500 true
      | ModelOutcome.raisesValueError _ => resp502 none
      | ModelOutcome.ok text =>
        match extract_json_from_text text with
        | ExtractResult.ok g => ⟨200, g, true⟩
        | ExtractResult.err _ => resp502 (some text) := by
  have hl : pyLookupLast ("prompt") kvs = some (JsonVal.str s) := hidx
  have ht : pyTruthy (JsonVal.obj kvs) = true := pyTruthy_obj_of_lookup hl
  have hc : pyContains ("prompt") (JsonVal.obj kvs) = some true := pyContains_obj_of_lookup hl
  simp [generate_code, ht, hc, hidx, hne]

/- Conversely, the model is invoked only when validation passed in exactly
   that way. -/
lemma modelCalled_shape (data : ReqBody) (outcome : ModelOutcome)
    (h : (generate_code data outcome).modelCalled = true) :
    ∃ kvs s, data = ReqBody.json (JsonVal.obj kvs) ∧
      pyIndex ("prompt") (JsonVal.obj kvs) = some (JsonVal.str s) ∧ ¬ pyStrip s = "" := by
  cases data with
  | malformed => simp [generate_code, resp500] at h
  | absent => simp [generate_code, resp400Missing] at h
  | json v =>
    by_cases ht : pyTruthy v = false
    · simp [generate_code, ht, resp400Missing] at h
    · cases hc : pyContains ("prompt") v with
      | none => simp [generate_code, ht, hc, resp500] at h
      | some b =>
        cases b with
        | false => simp [generate_code, ht, hc, resp400Missing] at h
        | true =>
          cases hi : pyIndex ("prompt") v with
          | none => simp [generate_code, ht, hc, hi, resp500] at h
          | some pv =>
            cases pv with
            | str s =>
              by_cases hs : pyStrip s = ""
              · simp [generate_code, ht, hc, hi, hs, resp400Empty] at h
              · obtain ⟨kvs, hv, _⟩ := pyIndex_obj hi
                exact ⟨kvs, s, by rw [hv], by rw [← hv]; exact hi, hs⟩
            | null => simp [generate_code, ht, hc, hi, resp500] at h
            | bool b2 => simp [generate_code, ht, hc, hi, resp500] at h
            | num lex => simp [generate_code, ht, hc, hi, resp500] at h
            | arr xs => simp [generate_code, ht, hc, hi, resp500] at h
            | obj kvs2 => simp [generate_code, ht, hc, hi, resp500] at h

/- Claim theorems. -/

/-- C1 counterexample: the raw text consisting of a single well-formed JSON
object followed by prose that contains a closing brace.  The greedy capture
runs to the last closing brace of the text, so the captured span is the whole
tail and is not valid JSON: the extractor fails instead of returning the
parsed object, refuting the claim as stated. -/
theorem c1_counterexample :
    jsonParse ("\x7b\"a\": 1\x7d") = some (JsonVal.obj [(("a"), JsonVal.num ("1"))]) ∧
    extract_json_from_text ("\x7b\"a\": 1\x7d x\x7d") = ExtractResult.err ExtractErr.invalidJson ∧
    ¬ extract_json_from_text ("\x7b\"a\": 1\x7d x\x7d") =
        ExtractResult.ok (JsonVal.obj [(("a"), JsonVal.num ("1"))]) :=
  ⟨rfl, rfl, fun h => nomatch h⟩

/-- C1 (amended): for every raw model text containing a single well-formed
JSON object, with or without surrounding prose, extract_json_from_text
returns exactly the JSON-parse of that object provided the prose before the
object contains no opening brace and the prose after it contains no closing
brace (the counterexample shows the proviso is necessary). -/
theorem c1_single_object_brace_free_prose (pre mid post : List Char) (v : JsonVal)
    (hpre : '\x7b' ∉ pre) (hpost : '\x7d' ∉ post)
    (hparse : jsonParse (String.mk ('\x7b' :: (mid ++ ['\x7d']))) = some v) :
    extract_json_from_text (String.mk (pre ++ ('\x7b' :: (mid ++ ['\x7d'])) ++ post)) =
      ExtractResult.ok v := by
  unfold extract_json_from_text
  have hp : ∀ x ∈ pre, notBrace x = true := by
    intro x hx
    simp only [notBrace, bne_iff_ne, ne_eq]
    intro he
    exact hpre (he ▸ hx)
  have ht : (String.mk (pre ++ ('\x7b' :: (mid ++ ['\x7d'])) ++ post)).toList
      = pre ++ ('\x7b' :: (mid ++ ['\x7d'])) ++ post := rfl
  rw [ht, reSearch_eq_expectedSpan, expectedSpan_embedded pre mid post hp hpost]
  show (match jsonParse (String.mk ('\x7b' :: (mid ++ ['\x7d']))) with
        | some v2 => ExtractResult.ok v2
        | none => ExtractResult.err ExtractErr.invalidJson) = ExtractResult.ok v
  rw [hparse]

/-- C1 witness: a fenced-free text with prose on both sides, neither side
containing a harmful brace. -/
theorem c1_witness :
    '\x7b' ∉ ("Sure: ").toList ∧
    '\x7d' ∉ ((" ok").toList) ∧
    extract_json_from_text
        (String.mk (("Sure: ").toList ++ ('\x7b' :: (("\"a\": 1").toList ++ ['\x7d'])) ++
          (" ok").toList)) =
      ExtractResult.ok (JsonVal.obj [(("a"), JsonVal.num ("1"))]) :=
  ⟨by decide, by decide,
    c1_single_object_brace_free_prose (("Sure: ").toList) (("\"a\": 1").toList) ((" ok").toList)
      (JsonVal.obj [(("a"), JsonVal.num ("1"))]) (by decide) (by decide) rfl⟩

/-- C2: extract_json_from_text fails if and only if either the text contains
no candidate brace span (failure reason noJsonFound, message No JSON found in
response) or the captured span is not valid JSON (failure reason invalidJson,
message referencing the json decode diagnostic); in every other case it
succeeds with the parsed value. -/
theorem c2_extraction_error_iff (text : String) :
    (extract_json_from_text text = ExtractResult.err ExtractErr.noJsonFound ↔
      expectedSpan text.toList = none) ∧
    (extract_json_from_text text = ExtractResult.err ExtractErr.invalidJson ↔
      ∃ g, expectedSpan text.toList = some g ∧ jsonParse (String.mk g) = none) ∧
    ((∃ v, extract_json_from_text text = ExtractResult.ok v) ↔
      ∃ g v, expectedSpan text.toList = some g ∧ jsonParse (String.mk g) = some v) := by
  unfold extract_json_from_text
  rw [reSearch_eq_expectedSpan]
  cases hs : expectedSpan text.toList with
  | none => simp
  | some g =>
    cases hp : jsonParse (String.mk g) with
    | none => simp [hp]
    | some v => simp [hp]

/-- C3: a request whose JSON object body lacks a prompt key, or whose prompt
value is a string that is empty after trimming, receives status 400 with a
body carrying an error field. -/
theorem c3_missing_or_empty_prompt_gives_400 (kvs : List (String × JsonVal))
    (outcome : ModelOutcome)
    (h : (∀ p ∈ kvs, ¬ p.1 = "prompt") ∨
      (∃ s, pyIndex ("prompt") (JsonVal.obj kvs) = some (JsonVal.str s) ∧ pyStrip s = "")) :
    (generate_code (ReqBody.json (JsonVal.obj kvs)) outcome).status = 400 ∧
    hasKey ("error") (generate_code (ReqBody.json (JsonVal.obj kvs)) outcome).body = true := by
  rcases h with h | ⟨s, hidx, hs⟩
  · cases kvs with
    | nil => exact ⟨rfl, rfl⟩
    | cons p rest =>
      have ht : pyTruthy (JsonVal.obj (p :: rest)) = true := rfl
      have hany : (p :: rest).any (fun q => q.1 == ("prompt")) = false := by
        cases hb : (p :: rest).any (fun q => q.1 == ("prompt")) with
        | false => rfl
        | true =>
          exfalso
          rw [List.any_eq_true] at hb
          obtain ⟨q, hq, hbe⟩ := hb
          exact h q hq (beq_iff_eq.mp hbe)
      have hc : pyContains ("prompt") (JsonVal.obj (p :: rest)) = some false := by
        simp only [pyContains, hany]
      simp [generate_code, ht, hc, resp400Missing, hasKey]
  · have hl : pyLookupLast ("prompt") kvs = some (JsonVal.str s) := hidx
    have ht := pyTruthy_obj_of_lookup hl
    have hc := pyContains_obj_of_lookup hl
    simp [generate_code, ht, hc, hidx, hs, resp400Empty, hasKey]

/-- C3 witness: the empty object body lacks the prompt key. -/
theorem c3_witness :
    (generate_code (ReqBody.json (JsonVal.obj [])) (ModelOutcome.ok ("x"))).status = 400 ∧
    hasKey ("error")
      (generate_code (ReqBody.json (JsonVal.obj [])) (ModelOutcome.ok ("x"))).body = true :=
  c3_missing_or_empty_prompt_gives_400 [] (ModelOutcome.ok ("x")) (Or.inl (by simp))

/-- C4 counterexample: a request whose body is present but not valid JSON
makes request.get_json raise inside the try block; the exception is caught by
the generic handler, so the response status is 500 — a server error, not the
client-error status the claim requires. -/
theorem c4_counterexample :
    (generate_code ReqBody.malformed (ModelOutcome.ok ("t"))).status = 500 ∧
    ¬ (400 ≤ (generate_code ReqBody.malformed (ModelOutcome.ok ("t"))).status ∧
       (generate_code ReqBody.malformed (ModelOutcome.ok ("t"))).status < 500) :=
  ⟨rfl, by decide⟩

/-- C4 (amended): when get_json returns None (older Flask, missing body or
missing JSON content type) the handler answers 400 with a short message; but
when get_json raises (body present yet unparseable — and, on newer Flask,
also a missing JSON content type) the exception lands in the generic handler:
status 500 with the generic internal-error message, not a client-error
status, and the model is not called. -/
theorem c4_invalid_body_500_absent_body_400 (outcome : ModelOutcome) :
    generate_code ReqBody.malformed outcome = resp500 false ∧
    (generate_code ReqBody.malformed outcome).status = 500 ∧
    generate_code ReqBody.absent outcome = resp400Missing ∧
    (generate_code ReqBody.absent outcome).status = 400 ∧
    hasKey ("error") (generate_code ReqBody.absent outcome).body = true :=
  ⟨rfl, rfl, rfl, rfl, rfl⟩

/-- C5: a request that fails validation — missing or invalid body, missing
prompt key, or empty-after-trim prompt — never reaches the call of
model.generate_content. -/
theorem c5_validation_failure_no_model_call (data : ReqBody) (outcome : ModelOutcome)
    (h : failsValidation data = true) :
    (generate_code data outcome).modelCalled = false := by
  cases hm : (generate_code data outcome).modelCalled with
  | false => rfl
  | true =>
    exfalso
    obtain ⟨kvs, s, hd, hidx, hs⟩ := modelCalled_shape data outcome hm
    subst hd
    have hl : pyLookupLast ("prompt") kvs = some (JsonVal.str s) := hidx
    have ht := pyTruthy_obj_of_lookup hl
    have hc := pyContains_obj_of_lookup hl
    simp [failsValidation, ht, hc, hidx, hs] at h

/-- C5 witness: the absent body fails validation and the model is not
called. -/
theorem c5_witness :
    failsValidation ReqBody.absent = true ∧
    (generate_code ReqBody.absent (ModelOutcome.ok ("x"))).modelCalled = false :=
  ⟨rfl, c5_validation_failure_no_model_call ReqBody.absent (ModelOutcome.ok ("x")) rfl⟩

/-- C6: when extraction of the model's raw text fails, the handler answers
502 Bad Gateway with an error string and a raw_response field holding the raw
model text (in this flow a response text is always bound at the except
ValueError site, so the None branch of the source never fires). -/
theorem c6_extraction_failure_502 (kvs : List (String × JsonVal)) (s text : String)
    (e : ExtractErr)
    (hidx : pyIndex ("prompt") (JsonVal.obj kvs) = some (JsonVal.str s))
    (hne : ¬ pyStrip s = "")
    (hext : extract_json_from_text text = ExtractResult.err e) :
    generate_code (ReqBody.json (JsonVal.obj kvs)) (ModelOutcome.ok text) =
      ⟨502, JsonVal.obj
        [(("error"), JsonVal.str msgMalformedResponse),
         (("raw_response"), JsonVal.str text)], true⟩ := by
  rw [generate_code_reach kvs s (ModelOutcome.ok text) hidx hne]
  show (match extract_json_from_text text with
        | ExtractResult.ok g => ({ status := 200, body := g, modelCalled := true } : HandlerResult)
        | ExtractResult.err _ => resp502 (some text)) = _
  rw [hext]
  rfl

/-- C6 witness: the model returns plain prose with no braces; the response is
502 and raw_response equals that prose. -/
theorem c6_witness :
    extract_json_from_text ("I cannot do that.") = ExtractResult.err ExtractErr.noJsonFound ∧
    generate_code (ReqBody.json (JsonVal.obj [(("prompt"), JsonVal.str ("x"))]))
        (ModelOutcome.ok ("I cannot do that.")) =
      ⟨502, JsonVal.obj
        [(("error"), JsonVal.str msgMalformedResponse),
         (("raw_response"), JsonVal.str ("I cannot do that."))], true⟩ :=
  ⟨rfl, c6_extraction_failure_502 [(("prompt"), JsonVal.str ("x"))] ("x") ("I cannot do that.")
    ExtractErr.noJsonFound rfl (by decide) rfl⟩

/-- C7: the candidate span captured by the regex search runs from the first
opening brace of the text greedily to the last closing brace of the text,
across lines, with the optional leading and trailing fenced-code markers
tolerated and irrelevant to the captured span: the search agrees with the
specification-side description expectedSpan on every input. -/
theorem c7_captured_span (cs : List Char) : reSearch cs = expectedSpan cs :=
  reSearch_eq_expectedSpan cs

/-- C8: when the captured span parses, the parsed object is returned verbatim
with status 200 and no post-parse schema validation: the result is whatever
value the span parsed to, whether or not the html, css and js keys are
present. -/
theorem c8_no_schema_validation (kvs : List (String × JsonVal)) (s text : String)
    (v : JsonVal)
    (hidx : pyIndex ("prompt") (JsonVal.obj kvs) = some (JsonVal.str s))
    (hne : ¬ pyStrip s = "")
    (hext : extract_json_from_text text = ExtractResult.ok v) :
    generate_code (ReqBody.json (JsonVal.obj kvs)) (ModelOutcome.ok text) =
      ⟨200, v, true⟩ := by
  rw [generate_code_reach kvs s (ModelOutcome.ok text) hidx hne]
  show (match extract_json_from_text text with
        | ExtractResult.ok g => ({ status := 200, body := g, modelCalled := true } : HandlerResult)
        | ExtractResult.err _ => resp502 (some text)) = _
  rw [hext]

/-- C8 witness: a parsed object carrying none of the html, css and js keys is
still returned as a 200 success. -/
theorem c8_witness :
    extract_json_from_text ("\x7b\"foo\": \"bar\"\x7d") =
      ExtractResult.ok (JsonVal.obj [(("foo"), JsonVal.str ("bar"))]) ∧
    generate_code (ReqBody.json (JsonVal.obj [(("prompt"), JsonVal.str ("x"))]))
        (ModelOutcome.ok ("\x7b\"foo\": \"bar\"\x7d")) =
      ⟨200, JsonVal.obj [(("foo"), JsonVal.str ("bar"))], true⟩ :=
  ⟨rfl, c8_no_schema_validation [(("prompt"), JsonVal.str ("x"))] ("x")
    ("\x7b\"foo\": \"bar\"\x7d") (JsonVal.obj [(("foo"), JsonVal.str ("bar"))]) rfl
    (by decide) rfl⟩

/-- C9 counterexample: for a valid request, a ValueError raised by the model
client — a documented client failure mode, hence a failure other than
validation and extraction failure — is caught by the except ValueError
branch: the handler answers 502 with a null raw_response, not the generic
500 the claim asserts for every such failure. -/
theorem c9_counterexample :
    (generate_code (ReqBody.json (JsonVal.obj [(("prompt"), JsonVal.str ("x"))]))
        (ModelOutcome.raisesValueError ("blocked prompt"))).modelCalled = true ∧
    (generate_code (ReqBody.json (JsonVal.obj [(("prompt"), JsonVal.str ("x"))]))
        (ModelOutcome.raisesValueError ("blocked prompt"))).status = 502 ∧
    ¬ (generate_code (ReqBody.json (JsonVal.obj [(("prompt"), JsonVal.str ("x"))]))
        (ModelOutcome.raisesValueError ("blocked prompt"))).status = 500 ∧
    (generate_code (ReqBody.json (JsonVal.obj [(("prompt"), JsonVal.str ("x"))]))
        (ModelOutcome.raisesValueError ("blocked prompt"))).body =
      JsonVal.obj
        [(("error"), JsonVal.str msgMalformedResponse),
         (("raw_response"), JsonVal.null)] :=
  ⟨rfl, rfl, by decide, rfl⟩

/-- C9 (amended): a non-ValueError exception from the model client yields
status 500 with the generic internal-error body, independent of the
exception detail — no internal information reaches the caller; but a
ValueError raised by the client call itself is caught by the except
ValueError branch instead: status 502 with the malformed-response error and
a null raw_response, likewise independent of the detail. -/
theorem c9_client_failure_routing (data : ReqBody) (d1 d2 : String)
    (h : (generate_code data (ModelOutcome.raises d1)).modelCalled = true) :
    ((generate_code data (ModelOutcome.raises d1)).status = 500 ∧
     (generate_code data (ModelOutcome.raises d1)).body =
       JsonVal.obj [(("error"), JsonVal.str msgInternal)] ∧
     generate_code data (ModelOutcome.raises d1) =
       generate_code data (ModelOutcome.raises d2)) ∧
    ((generate_code data (ModelOutcome.raisesValueError d1)).status = 502 ∧
     (generate_code data (ModelOutcome.raisesValueError d1)).body =
       JsonVal.obj
         [(("error"), JsonVal.str msgMalformedResponse),
          (("raw_response"), JsonVal.null)] ∧
     generate_code data (ModelOutcome.raisesValueError d1) =
       generate_code data (ModelOutcome.raisesValueError d2)) := by
  obtain ⟨kvs, s, hd, hidx, hs⟩ := modelCalled_shape data _ h
  subst hd
  rw [generate_code_reach kvs s (ModelOutcome.raises d1) hidx hs,
    generate_code_reach kvs s (ModelOutcome.raises d2) hidx hs,
    generate_code_reach kvs s (ModelOutcome.raisesValueError d1) hidx hs,
    generate_code_reach kvs s (ModelOutcome.raisesValueError d2) hidx hs]
  exact ⟨⟨rfl, rfl, rfl⟩, ⟨rfl, rfl, rfl⟩⟩

/-- C9 witness: a valid request, evaluated both at a non-ValueError client
failure (500, generic body) and at a ValueError client failure (502, null
raw_response). -/
theorem c9_amended_witness :
    (generate_code (ReqBody.json (JsonVal.obj [(("prompt"), JsonVal.str ("x"))]))
        (ModelOutcome.raises ("network down"))).modelCalled = true ∧
    (generate_code (ReqBody.json (JsonVal.obj [(("prompt"), JsonVal.str ("x"))]))
        (ModelOutcome.raises ("network down"))).status = 500 ∧
    (generate_code (ReqBody.json (JsonVal.obj [(("prompt"), JsonVal.str ("x"))]))
        (ModelOutcome.raisesValueError ("blocked"))).status = 502 :=
  ⟨rfl,
    (c9_client_failure_routing
      (ReqBody.json (JsonVal.obj [(("prompt"), JsonVal.str ("x"))]))
      ("network down") ("other detail") rfl).1.1,
    (c9_client_failure_routing
      (ReqBody.json (JsonVal.obj [(("prompt"), JsonVal.str ("x"))]))
      ("blocked") ("other detail") rfl).2.1⟩

/-- C10: a JSON object body whose prompt value is not a string makes .strip()
raise; the generic handler answers 500, not the 400 used for missing or
empty prompts. -/
theorem c10_nonstring_prompt_500 (kvs : List (String × JsonVal)) (pv : JsonVal)
    (outcome : ModelOutcome)
    (hidx : pyIndex ("prompt") (JsonVal.obj kvs) = some pv)
    (hns : ∀ s, ¬ pv = JsonVal.str s) :
    (generate_code (ReqBody.json (JsonVal.obj kvs)) outcome).status = 500 ∧
    ¬ (generate_code (ReqBody.json (JsonVal.obj kvs)) outcome).status = 400 ∧
    generate_code (ReqBody.json (JsonVal.obj kvs)) outcome = resp500 false := by
  have hl : pyLookupLast ("prompt") kvs = some pv := hidx
  have ht := pyTruthy_obj_of_lookup hl
  have hc := pyContains_obj_of_lookup hl
  have h500 : generate_code (ReqBody.json (JsonVal.obj kvs)) outcome = resp500 false := by
    cases pv with
    | str s => exact absurd rfl (hns s)
    | null => simp [generate_code, ht, hc, hidx]
    | bool b => simp [generate_code, ht, hc, hidx]
    | num lex => simp [generate_code, ht, hc, hidx]
    | arr xs => simp [generate_code, ht, hc, hidx]
    | obj kvs2 => simp [generate_code, ht, hc, hidx]
  exact ⟨by rw [h500]; decide, by rw [h500]; decide, h500⟩

/-- C10 witness: a numeric prompt value yields the 500 path. -/
theorem c10_witness :
    pyIndex ("prompt") (JsonVal.obj [(("prompt"), JsonVal.num ("5"))]) =
      some (JsonVal.num ("5")) ∧
    (generate_code (ReqBody.json (JsonVal.obj [(("prompt"), JsonVal.num ("5"))]))
        (ModelOutcome.ok ("t"))).status = 500 :=
  ⟨rfl, (c10_nonstring_prompt_500 [(("prompt"), JsonVal.num ("5"))] (JsonVal.num ("5"))
    (ModelOutcome.ok ("t")) rfl (fun s h => by cases h)).1⟩
